import Mathlib

/-!
Verification development for the minimal-metrics analytics collector.

The definitions below are a shallow embedding of the relevant source
modules:

* the validation utilities (field validators, `validateCollectData`,
  `sanitizeString`) from the server utils module;
* the session-hash anonymizer `hashSession` (SHA-256, hex, first 16
  chars) from the db queries module;
* the storage-layer queries and the aggregation / retention engine
  (`getPageViews`, `getTopPages`, `getTopReferrers`, `getCountryStats`,
  `getHourlyStats`, `getPageViewsWithComparison`, `updateActiveVisitor`,
  `aggregateHourlyStats`, `cleanupOldData`) from the db queries module,
  with the SQLite tables modelled as Lean data (the events table as a
  list of rows, the keyed stats tables as finite maps).

JavaScript untyped values are modelled by the inductive type `JSValue`;
machine timestamps are `Int` milliseconds; string lengths use UTF-16
code units as in JavaScript.
-/

namespace MinimalMetrics

/-! ## JavaScript value model -/

/-- Model of an untyped JavaScript value as received in a JSON payload.
`undef` stands for the JavaScript undefined value (also used for an
absent field). -/
inductive JSValue where
  | null
  | undef
  | str (s : String)
  | num (n : Int)
  | boolean (b : Bool)
  | obj (fields : List (String × JSValue))
  | arr (elems : List JSValue)

/-- True exactly on the JavaScript undefined value. -/
def JSValue.isUndef : JSValue → Bool
  | .undef => true
  | _ => false

/-- Length of a string in UTF-16 code units, which is what the
JavaScript `length` property of a string counts. -/
def utf16Len (s : String) : Nat :=
  (s.data.map (fun c => if c.toNat ≥ 0x10000 then 2 else 1)).sum

/-- Lowercase hexadecimal digit for a nibble value. -/
def hexDigitChar : Nat → Char
  | 0 => '0'
  | 1 => '1'
  | 2 => '2'
  | 3 => '3'
  | 4 => '4'
  | 5 => '5'
  | 6 => '6'
  | 7 => '7'
  | 8 => '8'
  | 9 => '9'
  | 10 => 'a'
  | 11 => 'b'
  | 12 => 'c'
  | 13 => 'd'
  | 14 => 'e'
  | _ => 'f'

/-! ## JSON serialization (JSON.stringify as used by validateEventProps) -/

/-- JSON escaping of a single character, as JSON.stringify performs it. -/
def jsonEscapeChar (c : Char) : String :=
  if c = '"' then "\\\""
  else if c = '\\' then "\\\\"
  else if c = '\x08' then "\\b"
  else if c = '\x09' then "\\t"
  else if c = '\x0a' then "\\n"
  else if c = '\x0c' then "\\f"
  else if c = '\x0d' then "\\r"
  else if c.toNat < 0x20 then
    "\\u00" ++ String.mk [hexDigitChar (c.toNat / 16), hexDigitChar (c.toNat % 16)]
  else String.mk [c]

/-- JSON escaping of a string body. -/
def jsonEscape (s : String) : String :=
  String.join (s.data.map jsonEscapeChar)

mutual

/-- Model of JSON.stringify on the modelled value space. Inside an
array an undefined element serializes as null; inside an object a key
whose value is undefined is dropped, as JSON.stringify does. -/
def jsonStringify : JSValue → String
  | .null => "null"
  | .undef => "null"
  | .boolean b => if b then "true" else "false"
  | .num n => toString n
  | .str s => "\"" ++ jsonEscape s ++ "\""
  | .arr es => "[" ++ String.intercalate "," (jsonArrParts es) ++ "]"
  | .obj fs => "\x7b" ++ String.intercalate "," (jsonObjParts fs) ++ "\x7d"

/-- Serialized fragments of the elements of a JSON array. -/
def jsonArrParts : List JSValue → List String
  | [] => []
  | v :: vs => jsonStringify v :: jsonArrParts vs

/-- Serialized key-value fragments of a JSON object, dropping keys
bound to undefined. -/
def jsonObjParts : List (String × JSValue) → List String
  | [] => []
  | (k, v) :: fs =>
    if v.isUndef then jsonObjParts fs
    else ("\"" ++ jsonEscape k ++ "\":" ++ jsonStringify v) :: jsonObjParts fs

end

/-! ## Field validators

Each validator is translated from the corresponding function of the
validation module. The source returns a record with a `valid` flag and
an optional `error` message; this is embedded as `Option String`, where
`none` means valid and `some e` carries the error message. -/

/-- Character class of the session-id regular expression
(letters, digits, underscore, hyphen). -/
def sessionIdChar (c : Char) : Bool :=
  ('a' ≤ c && c ≤ 'z') || ('A' ≤ c && c ≤ 'Z') || ('0' ≤ c && c ≤ '9') ||
    c = '_' || c = '-'

/-- Test of the session-id pattern: one or more characters, all from
the session-id character class. -/
def sessionIdPattern (s : String) : Bool :=
  !s.data.isEmpty && s.data.all sessionIdChar

/-- The startsWith test of JavaScript strings, over character lists. -/
def startsWithStr (s p : String) : Bool := p.data.isPrefixOf s.data

/-- Split a character list at every occurrence of a separator
character; on a single-character separator this is the split the
screen-size pattern performs. -/
def splitOnChar (sep : Char) : List Char → List (List Char)
  | [] => [[]]
  | c :: cs =>
    let parts := splitOnChar sep cs
    if c = sep then [] :: parts
    else
      match parts with
      | p :: ps => (c :: p) :: ps
      | [] => [[c]]

/-- Test of the screen-size pattern: digits, the letter x, digits. -/
def screenSizePattern (s : String) : Bool :=
  match splitOnChar 'x' s.data with
  | [a, b] => !a.isEmpty && a.all Char.isDigit &&
      !b.isEmpty && b.all Char.isDigit
  | _ => false

/-- Translation of validateUrl. -/
def validateUrl (url : JSValue) : Option String :=
  match url with
  | .str s =>
    if utf16Len s = 0 then some "URL is required"
    else if utf16Len s > 2000 then some "URL exceeds maximum length of 2000"
    else if !(startsWithStr s "http://" || startsWithStr s "https://") then
      some "URL must start with http:// or https://"
    else none
  | _ => some "URL must be a string"

/-- Translation of validateSessionId. -/
def validateSessionId (sid : JSValue) : Option String :=
  match sid with
  | .str s =>
    if utf16Len s = 0 then some "Session ID is required"
    else if utf16Len s > 50 then some "Session ID exceeds maximum length of 50"
    else if !sessionIdPattern s then some "Session ID contains invalid characters"
    else none
  | _ => some "Session ID must be a string"

/-- Translation of validateReferrer. -/
def validateReferrer (ref : JSValue) : Option String :=
  match ref with
  | .null | .undef | .str "" => none
  | .str s =>
    if utf16Len s > 2000 then some "Referrer exceeds maximum length of 2000"
    else none
  | _ => some "Referrer must be a string"

/-- Translation of validateScreenSize. -/
def validateScreenSize (scr : JSValue) : Option String :=
  match scr with
  | .null | .undef | .str "" => none
  | .str s =>
    if utf16Len s > 20 then some "Screen size exceeds maximum length of 20"
    else if !screenSizePattern s then
      some "Screen size must be in format WIDTHxHEIGHT"
    else none
  | _ => some "Screen size must be a string"

/-- Translation of validateTimezone. -/
def validateTimezone (tz : JSValue) : Option String :=
  match tz with
  | .null | .undef | .str "" => none
  | .str s =>
    if utf16Len s > 50 then some "Timezone exceeds maximum length of 50"
    else none
  | _ => some "Timezone must be a string"

/-- Epoch milliseconds of 2020-01-01T00:00:00Z, the fixed lower bound of
the timestamp range check in validateTimestamp. -/
def epochFloor : Int := 1577836800000

/-- Translation of validateTimestamp; `now` is the current clock reading
in epoch milliseconds (the source reads it from the system clock). -/
def validateTimestamp (now : Int) (ts : JSValue) : Option String :=
  match ts with
  | .null | .undef => none
  | .num t =>
    if t < epochFloor || t > now + 86400000 then
      some "Timestamp is out of valid range"
    else none
  | _ => some "Timestamp must be a number"

/-- Translation of validateEventName. -/
def validateEventName (evt : JSValue) : Option String :=
  match evt with
  | .null | .undef | .str "" => none
  | .str s =>
    if utf16Len s > 100 then some "Event name exceeds maximum length of 100"
    else none
  | _ => some "Event name must be a string"

/-- Translation of validateEventProps. A non-object non-null value
(including a string, so also the empty string) fails the typeof check
of the source; an array fails the Array.isArray check with the same
message. -/
def validateEventProps (props : JSValue) : Option String :=
  match props with
  | .null | .undef => none
  | .obj fs =>
    if utf16Len (jsonStringify (.obj fs)) > 5000 then
      some "Event properties exceed maximum size of 5000"
    else none
  | _ => some "Event properties must be an object"

/-- Translation of validateUtm; `name` is the field name interpolated
into the error messages. -/
def validateUtm (utm : JSValue) (name : String) : Option String :=
  match utm with
  | .null | .undef | .str "" => none
  | .str s =>
    if utf16Len s > 200 then some (name ++ " exceeds maximum length of 200")
    else none
  | _ => some (name ++ " must be a string")

/-- The payload of a collect request: every field the validator reads.
A field missing from the JSON object reads as undefined in JavaScript,
so an absent field is represented by `JSValue.undef`. -/
structure CollectPayload where
  url : JSValue
  sid : JSValue
  ref : JSValue
  scr : JSValue
  tz : JSValue
  ts : JSValue
  evt : JSValue
  props : JSValue
  utm_source : JSValue
  utm_medium : JSValue
  utm_campaign : JSValue
  utm_term : JSValue
  utm_content : JSValue

/-- The thirteen validator results of validateCollectData, in the order
the source runs them. -/
def collectResults (now : Int) (d : CollectPayload) : List (Option String) :=
  [validateUrl d.url,
   validateSessionId d.sid,
   validateReferrer d.ref,
   validateScreenSize d.scr,
   validateTimezone d.tz,
   validateTimestamp now d.ts,
   validateEventName d.evt,
   validateEventProps d.props,
   validateUtm d.utm_source "utm_source",
   validateUtm d.utm_medium "utm_medium",
   validateUtm d.utm_campaign "utm_campaign",
   validateUtm d.utm_term "utm_term",
   validateUtm d.utm_content "utm_content"]

/-- Translation of validateCollectData: runs every validator, collects
the error messages in order, and reports valid exactly when the list of
errors is empty. -/
def validateCollectData (now : Int) (d : CollectPayload) : Bool × List String :=
  let errors := (collectResults now d).filterMap id
  (errors.isEmpty, errors)

/-! ## Sanitization -/

/-- The character set of the sanitization regular expression of the
source: ranges 00-08, single characters 0B and 0C, range 0E-1F, and 7F. -/
def removedByRegex (c : Char) : Bool :=
  c.toNat ≤ 0x08 || c.toNat = 0x0B || c.toNat = 0x0C ||
    (0x0E ≤ c.toNat && c.toNat ≤ 0x1F) || c.toNat = 0x7F

/-- Translation of sanitizeString on string input: the global regex
replace with the empty string deletes exactly the matched characters
and keeps all others in order, i.e. it filters the character list. -/
def sanitizeString (s : String) : String :=
  String.mk (s.data.filter (fun c => !removedByRegex c))

/-- The control-character set named by the specification sentence after
amendment: ASCII 00-1F excluding tab, newline and carriage return, plus
7F. Written from the amended specification words, to be compared with
`removedByRegex`, which is written from the source regex. -/
def specControlChar (c : Char) : Bool :=
  (c.toNat < 0x20 && c.toNat ≠ 0x09 && c.toNat ≠ 0x0A && c.toNat ≠ 0x0D) ||
    c.toNat = 0x7F

/-! ## SHA-256 and the session anonymizer

hashSession of the db queries module feeds the string
sessionId : ip : dateString to the SHA-256 digest of the node crypto
library, renders the digest in lowercase hexadecimal, and keeps the
first 16 characters. The crypto library is outside the repository, so
SHA-256 (FIPS 180-4) is embedded here in full over byte lists; bytes
and 32-bit words are `Nat` values reduced with explicit mod. -/

/-- Reduction of a natural number to a 32-bit word. -/
def w32 (n : Nat) : Nat := n % 4294967296

/-- Right rotation of a 32-bit word by `n` bits. -/
def rotr32 (n x : Nat) : Nat := w32 ((x >>> n) ||| (x <<< (32 - n)))

/-- Bitwise complement within 32 bits. -/
def notw (x : Nat) : Nat := x ^^^ 0xFFFFFFFF

/-- The SHA-256 choice function. -/
def chWord (x y z : Nat) : Nat := (x &&& y) ^^^ (notw x &&& z)

/-- The SHA-256 majority function. -/
def majWord (x y z : Nat) : Nat := (x &&& y) ^^^ (x &&& z) ^^^ (y &&& z)

/-- The SHA-256 upper-case sigma-0 function. -/
def bigSigma0 (x : Nat) : Nat := rotr32 2 x ^^^ rotr32 13 x ^^^ rotr32 22 x

/-- The SHA-256 upper-case sigma-1 function. -/
def bigSigma1 (x : Nat) : Nat := rotr32 6 x ^^^ rotr32 11 x ^^^ rotr32 25 x

/-- The SHA-256 lower-case sigma-0 function. -/
def smallSigma0 (x : Nat) : Nat := rotr32 7 x ^^^ rotr32 18 x ^^^ (x >>> 3)

/-- The SHA-256 lower-case sigma-1 function. -/
def smallSigma1 (x : Nat) : Nat := rotr32 17 x ^^^ rotr32 19 x ^^^ (x >>> 10)

/-- The eight 32-bit words of SHA-256 working state. -/
structure SHA256State where
  a : Nat
  b : Nat
  c : Nat
  d : Nat
  e : Nat
  f : Nat
  g : Nat
  h : Nat

/-- The SHA-256 initial hash value. -/
def initHash : SHA256State :=
  ⟨1779033703, 3144134277, 1013904242, 2773480762,
   1359893119, 2600822924, 528734635, 1541459225⟩

/-- The 64 SHA-256 round constants. -/
def roundK : List Nat :=
  [1116352408, 1899447441, 3049323471, 3921009573,
   961987163, 1508970993, 2453635748, 2870763221,
   3624381080, 310598401, 607225278, 1426881987,
   1925078388, 2162078206, 2614888103, 3248222580,
   3835390401, 4022224774, 264347078, 604807628,
   770255983, 1249150122, 1555081692, 1996064986,
   2554220882, 2821834349, 2952996808, 3210313671,
   3336571891, 3584528711, 113926993, 338241895,
   666307205, 773529912, 1294757372, 1396182291,
   1695183700, 1986661051, 2177026350, 2456956037,
   2730485921, 2820302411, 3259730800, 3345764771,
   3516065817, 3600352804, 4094571909, 275423344,
   430227734, 506948616, 659060556, 883997877,
   958139571, 1322822218, 1537002063, 1747873779,
   1955562222, 2024104815, 2227730452, 2361852424,
   2428436474, 2756734187, 3204031479, 3329325298]

/-- SHA-256 message padding: append the 0x80 byte, then zero bytes to
reach 56 mod 64, then the bit length as eight big-endian bytes. -/
def padMessage (msg : List Nat) : List Nat :=
  let L := msg.length
  let k := (119 - L % 64) % 64
  msg ++ [0x80] ++ List.replicate k 0 ++
    [((8*L) >>> 56) % 256, ((8*L) >>> 48) % 256,
     ((8*L) >>> 40) % 256, ((8*L) >>> 32) % 256,
     ((8*L) >>> 24) % 256, ((8*L) >>> 16) % 256,
     ((8*L) >>> 8) % 256, (8*L) % 256]

/-- Split a byte list into successive 64-byte blocks; the fuel is the
list length, enough because every step consumes at least one byte. -/
def toBlocksFuel : Nat → List Nat → List (List Nat)
  | 0, _ => []
  | _, [] => []
  | fuel+1, l => l.take 64 :: toBlocksFuel fuel (l.drop 64)

/-- Split a byte list into successive 64-byte blocks. -/
def toBlocks (l : List Nat) : List (List Nat) := toBlocksFuel l.length l

/-- Big-endian 32-bit word from the first four bytes of a list. -/
def beWord : List Nat → Nat
  | b0 :: b1 :: b2 :: b3 :: _ =>
    ((b0 % 256) <<< 24) + ((b1 % 256) <<< 16) + ((b2 % 256) <<< 8) + (b3 % 256)
  | _ => 0

/-- Word appended by the SHA-256 message-schedule recurrence. -/
def nextScheduleWord (ws : List Nat) : Nat :=
  let n := ws.length
  w32 (smallSigma1 (ws.getD (n-2) 0) + ws.getD (n-7) 0 +
    smallSigma0 (ws.getD (n-15) 0) + ws.getD (n-16) 0)

/-- Iterate the message-schedule recurrence `k` times. -/
def extendSchedule : Nat → List Nat → List Nat
  | 0, ws => ws
  | k+1, ws => extendSchedule k (ws ++ [nextScheduleWord ws])

/-- The 64-word message schedule of one 64-byte block. -/
def messageSchedule (block : List Nat) : List Nat :=
  extendSchedule 48 ((List.range 16).map (fun i => beWord (block.drop (4*i))))

/-- One SHA-256 compression round; `kw` pairs the round constant with
the schedule word. -/
def sha256Round (s : SHA256State) (kw : Nat × Nat) : SHA256State :=
  let t1 := w32 (s.h + bigSigma1 s.e + chWord s.e s.f s.g + kw.1 + kw.2)
  let t2 := w32 (bigSigma0 s.a + majWord s.a s.b s.c)
  ⟨w32 (t1 + t2), s.a, s.b, s.c, w32 (s.d + t1), s.e, s.f, s.g⟩

/-- SHA-256 compression of one 64-byte block into the running state. -/
def processBlock (s : SHA256State) (block : List Nat) : SHA256State :=
  let t := (roundK.zip (messageSchedule block)).foldl sha256Round s
  ⟨w32 (s.a + t.a), w32 (s.b + t.b), w32 (s.c + t.c), w32 (s.d + t.d),
   w32 (s.e + t.e), w32 (s.f + t.f), w32 (s.g + t.g), w32 (s.h + t.h)⟩

/-- The four big-endian bytes of a 32-bit word. -/
def wordBytes (w : Nat) : List Nat :=
  [(w >>> 24) % 256, (w >>> 16) % 256, (w >>> 8) % 256, w % 256]

/-- SHA-256 digest of a byte list: 32 bytes. -/
def sha256 (msg : List Nat) : List Nat :=
  let s := (toBlocks (padMessage msg)).foldl processBlock initHash
  wordBytes s.a ++ wordBytes s.b ++ wordBytes s.c ++ wordBytes s.d ++
    wordBytes s.e ++ wordBytes s.f ++ wordBytes s.g ++ wordBytes s.h

/-- UTF-8 encoding of one code point. -/
def utf8EncodeChar (n : Nat) : List Nat :=
  if n < 0x80 then [n]
  else if n < 0x800 then
    [0xC0 ||| (n >>> 6), 0x80 ||| (n &&& 0x3F)]
  else if n < 0x10000 then
    [0xE0 ||| (n >>> 12), 0x80 ||| ((n >>> 6) &&& 0x3F), 0x80 ||| (n &&& 0x3F)]
  else
    [0xF0 ||| (n >>> 18), 0x80 ||| ((n >>> 12) &&& 0x3F),
     0x80 ||| ((n >>> 6) &&& 0x3F), 0x80 ||| (n &&& 0x3F)]

/-- UTF-8 bytes of a string, as the node crypto update consumes it. -/
def utf8Bytes (s : String) : List Nat :=
  s.data.flatMap (fun c => utf8EncodeChar c.toNat)

/-- Lowercase hexadecimal rendering of a byte list, two characters per
byte, as digest hex produces. -/
def hexEncode (bytes : List Nat) : List Char :=
  bytes.flatMap (fun b => [hexDigitChar (b / 16), hexDigitChar (b % 16)])

/-- Translation of hashSession: digest of
sessionId : ip : date string, hex-rendered, first 16 characters. The
call-time date string new Date toDateString is passed as the `dateStr`
argument. -/
def hashSession (sessionId ip dateStr : String) : String :=
  String.mk ((hexEncode (sha256 (utf8Bytes
    (sessionId ++ ":" ++ ip ++ ":" ++ dateStr)))).take 16)

/-! ## Storage layer model

The SQLite tables of the schema are modelled as Lean data: the events
table as a list of rows in insertion order, the active-visitors table
as a list of rows keyed by session hash, and the two aggregate tables
as maps from their text primary key. Timestamps are `Int` epoch
milliseconds; last-seen values are `Int` epoch seconds. Columns of the
aggregate tables that no modelled operation reads or writes
(average session duration, bounce rate, the text summaries) are
omitted. -/

/-- A stored row of the events table. -/
structure Event where
  timestamp : Int
  page_url : String
  referrer : Option String
  session_hash : String
  country : Option String
  screen_size : Option String
  timezone : Option String
  event_name : String
  event_props : Option String
  utm_source : Option String
  utm_medium : Option String
  utm_campaign : Option String
  utm_term : Option String
  utm_content : Option String
deriving DecidableEq

/-- A stored row of the active-visitors table. -/
structure VisitorRow where
  session_hash : String
  page_url : String
  country : Option String
  last_seen : Int
  page_count : Nat
deriving DecidableEq

/-- The counted columns of an hourly (or daily) aggregate row. -/
structure HourlyRow where
  page_views : Nat
  unique_visitors : Nat
deriving DecidableEq

/-- The persistent store. -/
structure DBState where
  events : List Event
  statsHourly : String → Option HourlyRow
  statsDaily : String → Option HourlyRow

/-! ## Calendar rendering (the SQLite date and datetime functions) -/

/-- Civil date (year, month, day) from a count of days since
1970-01-01, by the standard era-based floor-division algorithm. -/
def civilFromDays (z0 : Int) : Int × Nat × Nat :=
  let z := z0 + 719468
  let era : Int := z.ediv 146097
  let doe : Nat := (z.emod 146097).toNat
  let yoe : Nat := (doe - doe / 1460 + doe / 36524 - doe / 146096) / 365
  let doy : Nat := doe - (365 * yoe + yoe / 4 - yoe / 100)
  let mp : Nat := (5 * doy + 2) / 153
  let dd : Nat := doy - (153 * mp + 2) / 5 + 1
  let mm : Nat := if mp < 10 then mp + 3 else mp - 9
  (era * 400 + (yoe : Int) + (if mm ≤ 2 then 1 else 0), mm, dd)

/-- Two-digit zero-padded rendering. -/
def pad2 (n : Nat) : String :=
  if n < 10 then "0" ++ toString n else toString n

/-- Four-digit zero-padded rendering of a year. -/
def pad4 (n : Int) : String :=
  if n < 0 then "-" ++ toString (-n)
  else if n < 10 then "000" ++ toString n
  else if n < 100 then "00" ++ toString n
  else if n < 1000 then "0" ++ toString n
  else toString n

/-- The date string of a day count since the epoch. -/
def dateStringOfDays (days : Int) : String :=
  let ymd := civilFromDays days
  pad4 ymd.1 ++ "-" ++ pad2 ymd.2.1 ++ "-" ++ pad2 ymd.2.2

/-- The SQLite date function on a unixepoch seconds value. -/
def dateOfSec (s : Int) : String := dateStringOfDays (s.ediv 86400)

/-- Time-of-day rendering HH:MM:SS of a unixepoch seconds value. -/
def timeOfDayOfSec (s : Int) : String :=
  let sod := (s.emod 86400).toNat
  pad2 (sod / 3600) ++ ":" ++ pad2 (sod % 3600 / 60) ++ ":" ++ pad2 (sod % 60)

/-- The SQLite datetime function on a unixepoch seconds value. -/
def datetimeOfSec (s : Int) : String := dateOfSec s ++ " " ++ timeOfDayOfSec s

/-- Lexicographic order on character lists; on the ASCII date and
datetime key strings this is exactly the SQLite text order used by the
comparisons in the retention sweep. -/
def charListLt : List Char → List Char → Bool
  | [], [] => false
  | [], _ :: _ => true
  | _ :: _, [] => false
  | a :: as, b :: bs => a < b || (a = b && charListLt as bs)

/-- Text comparison of two strings. -/
def textLt (a b : String) : Bool := charListLt a.data b.data

/-! ## Stats queries -/

/-- The pageview filter every stats query applies on event name. -/
def isPageview (e : Event) : Bool := e.event_name == "pageview"

/-- The SQL between test on timestamps, inclusive at both ends. -/
def tsBetween (s t : Int) (e : Event) : Bool :=
  s ≤ e.timestamp && e.timestamp ≤ t

/-- Count of distinct values of a list, as count distinct computes on a
non-null column. -/
def countDistinct (l : List String) : Nat := l.dedup.length

/-- Group rows by a key in first-occurrence order, producing for each
key the row count and the distinct-session count, as the grouped
select statements do. -/
def groupCounts (rows : List Event) (key : Event → String) :
    List (String × Nat × Nat) :=
  ((rows.map key).dedup).map (fun k =>
    let g := rows.filter (fun e => key e == k)
    (k, g.length, countDistinct (g.map (·.session_hash))))

/-- Translation of getPageViews: pageview count and distinct session
hashes between the bounds, as a pair of total and unique visitors. -/
def getPageViews (events : List Event) (startTime endTime : Int) : Nat × Nat :=
  let rows := events.filter (fun e => tsBetween startTime endTime e && isPageview e)
  (rows.length, countDistinct (rows.map (·.session_hash)))

/-- Translation of getTopPages: grouped by page url, ordered by view
count descending, first `limit` rows. Ties keep grouping order, the
deterministic order of this model (the source leaves tie order to the
store). -/
def getTopPages (events : List Event) (startTime endTime : Int) (limit : Nat) :
    List (String × Nat × Nat) :=
  let rows := events.filter (fun e => tsBetween startTime endTime e && isPageview e)
  ((groupCounts rows (·.page_url)).mergeSort (fun a b => b.2.1 ≤ a.2.1)).take limit

/-- Translation of getTopReferrers. The select coalesces a null
referrer to the label Direct, but SQLite resolves the bare GROUP BY
referrer term to the raw table column rather than to the select alias,
so a null referrer and a literal Direct referrer form separate groups;
the coalesced label is applied per output row. -/
def getTopReferrers (events : List Event) (startTime endTime : Int) (limit : Nat) :
    List (String × Nat × Nat) :=
  let rows := events.filter (fun e => tsBetween startTime endTime e && isPageview e)
  let grouped := ((rows.map (·.referrer)).dedup).map (fun k =>
    let g := rows.filter (fun e => e.referrer == k)
    (k.getD "Direct", g.length, countDistinct (g.map (·.session_hash))))
  (grouped.mergeSort (fun a b => b.2.1 ≤ a.2.1)).take limit

/-- Translation of getCountryStats: rows with a null country are
filtered out, grouped by country, ordered by visits descending, no
limit. -/
def getCountryStats (events : List Event) (startTime endTime : Int) :
    List (String × Nat × Nat) :=
  let rows := events.filter (fun e =>
    tsBetween startTime endTime e && isPageview e && e.country.isSome)
  (groupCounts rows (fun e => e.country.getD "")).mergeSort (fun a b => b.2.1 ≤ a.2.1)

/-- The two-digit hour field rendered by strftime %H on an event
timestamp (SQL divides the millisecond timestamp by 1000 with integer
truncation). -/
def hourOfTs (ts : Int) : String :=
  pad2 (((ts.tdiv 1000).emod 86400).toNat / 3600)

/-- Translation of getHourlyStats for a date already in the canonical
YYYY-MM-DD form (the SQL normalizes its parameter through the date
function, which is the identity on that form): pageview events of that
UTC date grouped by two-digit hour, ordered by hour ascending. -/
def getHourlyStats (events : List Event) (dateStr : String) :
    List (String × Nat × Nat) :=
  let rows := events.filter (fun e =>
    dateOfSec (e.timestamp.tdiv 1000) == dateStr && isPageview e)
  (groupCounts rows (fun e => hourOfTs e.timestamp)).mergeSort
    (fun a b => !textLt b.1 a.1)

/-! ## Aggregation and retention engine -/

/-- The select boundary of one aggregation cycle: now minus one hour. -/
def selectBoundary (now : Int) : Int := now - 3600000

/-- The purge boundary of one aggregation cycle: the select boundary
minus 24 hours, derived from the same now snapshot. -/
def purgeBoundary (now : Int) : Int := selectBoundary now - 86400000

/-- Hour bucket key as the aggregation query intends it: the
timestamp truncated to its hour, rendered as a datetime string. The
modifier the source writes, start of hour, is not one SQLite accepts,
so the real engine yields NULL for this expression; `hourKeySql` below
models that engine behavior, and this intended key is used only by
statements that do not depend on the difference. -/
def hourKey (ts : Int) : String :=
  datetimeOfSec (((ts.tdiv 1000).ediv 3600) * 3600)

/-- The rows selected by the aggregation query under the intended
hour key: pageview events strictly older than the select boundary,
grouped by hour key. -/
def hourlyGroups (events : List Event) (now : Int) : List (String × Nat × Nat) :=
  groupCounts
    (events.filter (fun e => e.timestamp < selectBoundary now && isPageview e))
    (fun e => hourKey e.timestamp)

/-- Insert-or-replace of one grouped row into the hourly stats map:
the row at that hour key is overwritten, every other key is kept. -/
def insertOrReplaceHourly (m : String → Option HourlyRow)
    (row : String × Nat × Nat) : String → Option HourlyRow :=
  fun k => if k = row.1 then some ⟨row.2.1, row.2.2⟩ else m k

/-- Translation of aggregateHourlyStats at clock reading `now`: one
transaction that selects pageview events older than now minus one hour
grouped by hour bucket, insert-or-replaces each bucket row into the
hourly stats table, then deletes raw events older than the purge
boundary. The source computes hourAgo from a single Date.now call and
derives the delete bound from it, so both boundaries here come from
the one `now` argument. The statsHourly component of this definition
carries the intended keyed-overwrite semantics of the hour bucket; the
engine-accurate hourly table, on which the bucket keys are NULL and
the writes never conflict, is `aggregateHourlyStatsSql` below. -/
def aggregateHourlyStats (now : Int) (st : DBState) : DBState :=
  { events := st.events.filter (fun e => !(e.timestamp < purgeBoundary now)),
    statsHourly := (hourlyGroups st.events now).foldl insertOrReplaceHourly st.statsHourly,
    statsDaily := st.statsDaily }

/-- Hour bucket key exactly as the engine computes it: the SQLite
datetime function is called with the modifiers unixepoch and start of
hour, but the only start-of modifiers SQLite recognizes are start of
day, start of month and start of year; a datetime call with an
unrecognized modifier returns NULL. The bucket key of the aggregation
query is therefore NULL for every timestamp. -/
def hourKeySql (_ts : Int) : Option String := none

/-- A row of the stats_hourly table together with its text primary
key, which SQLite allows to be NULL in this non-integer primary-key
column. -/
structure HourlyTableRow where
  hour : Option String
  page_views : Nat
  unique_visitors : Nat
deriving DecidableEq

/-- INSERT OR REPLACE into stats_hourly on the engine-accurate table:
a row with a non-NULL key replaces any stored row with that key, but
NULL keys are never equal for constraint purposes, so a NULL-keyed row
conflicts with nothing and is simply appended. -/
def insertOrReplaceRow (tbl : List HourlyTableRow) (row : HourlyTableRow) :
    List HourlyTableRow :=
  match row.hour with
  | some k => tbl.filter (fun r => r.hour ≠ some k) ++ [row]
  | none => tbl ++ [row]

/-- The rows the aggregation select produces under the engine-accurate
key: pageview events strictly older than the select boundary, grouped
by the NULL hour key; GROUP BY treats NULL values as equal, so at most
one group arises. -/
def hourlyGroupsSql (events : List Event) (now : Int) : List HourlyTableRow :=
  let rows := events.filter (fun e => e.timestamp < selectBoundary now && isPageview e)
  ((rows.map (fun e => hourKeySql e.timestamp)).dedup).map (fun k =>
    let g := rows.filter (fun e => hourKeySql e.timestamp == k)
    ⟨k, g.length, countDistinct (g.map (·.session_hash))⟩)

/-- Raw events plus the engine-accurate stats_hourly table. -/
structure DBStateSql where
  events : List Event
  statsHourly : List HourlyTableRow
deriving DecidableEq

/-- Translation of aggregateHourlyStats over the engine-accurate
hourly table: the same single-snapshot select and purge as
`aggregateHourlyStats`, with every grouped row written through
INSERT OR REPLACE into the row list. -/
def aggregateHourlyStatsSql (now : Int) (st : DBStateSql) : DBStateSql :=
  ⟨st.events.filter (fun e => !(e.timestamp < purgeBoundary now)),
   (hourlyGroupsSql st.events now).foldl insertOrReplaceRow st.statsHourly⟩

/-- Value of the longest leading run of decimal digits, none if that
run is empty. -/
def leadingDigitsVal (l : List Char) : Option Nat :=
  let ds := l.takeWhile Char.isDigit
  if ds.isEmpty then none
  else some (ds.foldl (fun acc c => acc * 10 + (c.toNat - 48)) 0)

/-- JavaScript parseInt on a configuration string: optional sign then
leading decimal digits, NaN (none here) when no digit leads. -/
def parseIntJS (s : String) : Option Int :=
  match s.data with
  | '-' :: rest => (leadingDigitsVal rest).map (fun n => -(n : Int))
  | '+' :: rest => (leadingDigitsVal rest).map (fun n => (n : Int))
  | l => (leadingDigitsVal l).map (fun n => (n : Int))

/-- The JavaScript or-default idiom on a string expression: an unset
variable and the empty string both fall back to the default. -/
def jsStrOr (v : Option String) (d : String) : String :=
  match v with
  | none => d
  | some s => if s = "" then d else s

/-- Translation of cleanupOldData at clock reading `now` with the
aggregated-data retention environment value `env`. The source parses
the value as an integer with default string 365 and multiplies it by
86400000 milliseconds, treating it as a count of days. Daily keys are
compared against the date rendering and hourly keys against the
datetime rendering of the cutoff, in text order as the SQL does; when
parseInt yields NaN every comparison with the resulting null is false
and nothing is deleted. Sub-second fractions of the cutoff are dropped
by the seconds-precision rendering, exactly as the datetime output
drops them. -/
def cleanupOldData (env : Option String) (now : Int) (st : DBState) : DBState :=
  match parseIntJS (jsStrOr env "365") with
  | none => st
  | some retentionDays =>
    let cutoffMs := now - retentionDays * 86400000
    let cutoffSec := cutoffMs.tdiv 1000
    { events := st.events,
      statsHourly := fun k =>
        if textLt k (datetimeOfSec cutoffSec) then none else st.statsHourly k,
      statsDaily := fun k =>
        if textLt k (dateOfSec cutoffSec) then none else st.statsDaily k }

/-- The SET clause of the on-conflict branch of updateActiveVisitor:
page url and last seen come from the excluded row and the page count
is incremented; the country column is not in the update list, so it
keeps its stored value. -/
def applyVisitorUpdate (pageUrl : String) (nowSec : Int) (x : VisitorRow) :
    VisitorRow :=
  { x with page_url := pageUrl, last_seen := nowSec,
           page_count := x.page_count + 1 }

/-- Translation of updateActiveVisitor: insert with on-conflict update
on the session-hash primary key. -/
def updateActiveVisitor (tbl : List VisitorRow) (sessionHash pageUrl : String)
    (country : Option String) (nowSec : Int) : List VisitorRow :=
  if tbl.any (fun r => r.session_hash == sessionHash) then
    tbl.map (fun r =>
      if r.session_hash == sessionHash then applyVisitorUpdate pageUrl nowSec r
      else r)
  else
    tbl ++ [⟨sessionHash, pageUrl, country, nowSec, 1⟩]

/-! ## Period comparison -/

/-- Result record of getPageViewsWithComparison; each pair is the
total and the unique-visitor metric. -/
structure ComparisonResult where
  current : Nat × Nat
  previous : Nat × Nat
  change : Rat × Rat

/-- JavaScript Math.round: nearest integer, halves toward positive
infinity. -/
def jsRound (x : Rat) : Int := Int.floor (x + 1/2)

/-- Translation of calculateChange: 100 or 0 when the previous value is
zero, otherwise the percent change rounded to one decimal place. The
result is always a rational number; the zero-previous branch never
divides. -/
def calculateChange (curr prev : Nat) : Rat :=
  if prev = 0 then (if curr > 0 then 100 else 0)
  else (jsRound (((curr : Rat) - (prev : Rat)) / (prev : Rat) * 100 * 10) : Rat) / 10

/-- Translation of getPageViewsWithComparison: the previous period
immediately precedes the current one with identical length, and each
metric gets a percent change. -/
def getPageViewsWithComparison (events : List Event) (startTime endTime : Int) :
    ComparisonResult :=
  let duration := endTime - startTime
  let current := getPageViews events startTime endTime
  let previous := getPageViews events (startTime - duration) (endTime - duration)
  ⟨current, previous,
    (calculateChange current.1 previous.1, calculateChange current.2 previous.2)⟩

/-! ## Supporting lemmas -/

/-- The character set removed by the source regex agrees pointwise with
the amended specification set (controls below space except tab, newline
and carriage return, plus delete). -/
theorem removedByRegex_eq_specControlChar (c : Char) :
    removedByRegex c = specControlChar c := by
  simp only [removedByRegex, specControlChar]
  rw [Bool.eq_iff_iff]
  simp only [Bool.or_eq_true, Bool.and_eq_true, decide_eq_true_eq, ne_eq,
    decide_not, Bool.not_eq_eq_eq_not, Bool.not_true, decide_eq_false_iff_not]
  omega

/-- Appending one element that fails the filter predicate does not
change the filtered list. -/
theorem filter_append_single_false {α : Type} (l : List α) (a : α)
    (p : α → Bool) (h : p a = false) : (l ++ [a]).filter p = l.filter p := by
  rw [List.filter_append]
  simp [List.filter, h]

/-! ## C9 -/

/-- C9 counterexample: the claim says the sanitizer removes every ASCII
control character in 00-1F other than tab and newline, so it would have
to remove the carriage return 0D; the code keeps it unchanged. -/
theorem sanitizeString_keeps_carriage_return :
    sanitizeString (String.mk ['\r']) = String.mk ['\r'] ∧
    '\r'.toNat < 0x20 ∧ '\r'.toNat ≠ 0x09 ∧ '\r'.toNat ≠ 0x0A := by
  refine ⟨rfl, by decide, by decide, by decide⟩

/-- C9 amended: the sanitization utility removes exactly the ASCII
control characters in 00-1F excluding tab, newline and carriage return,
plus 7F, and leaves every other character unchanged and in order: the
output is the filter of the input by the amended specification set, and
in particular a sublist of the input. -/
theorem sanitizeString_removes_spec_controls (s : String) :
    sanitizeString s = String.mk (s.data.filter (fun c => !specControlChar c)) ∧
    (sanitizeString s).data.Sublist s.data := by
  constructor
  · unfold sanitizeString
    congr 1
    apply List.filter_congr
    intro c _
    rw [removedByRegex_eq_specControlChar]
  · unfold sanitizeString
    exact List.filter_sublist s.data

/-! ## C5 -/

/-- The payload of the specification example with four malformed
fields: a url without scheme, a session id with forbidden characters, a
screen size not of the WIDTHxHEIGHT form, and a string timestamp. All
other fields are absent. -/
def badPayloadC5 : CollectPayload :=
  ⟨.str "invalid-url", .str "<script>", .undef, .str "bad", .undef,
   .str "not-a-number", .undef, .undef, .undef, .undef, .undef, .undef, .undef⟩

/-- C5: validateCollectData runs every field validator and accumulates
the errors: the valid flag is true exactly when the error list is
empty, every failing validator contributes its error message to the
returned list, and the four-bad-fields example payload is invalid with
at least four errors. -/
theorem validateCollectData_accumulates (now : Int) (d : CollectPayload) :
    ((validateCollectData now d).1 = true ↔ (validateCollectData now d).2 = []) ∧
    (∀ e : String, some e ∈ collectResults now d →
      e ∈ (validateCollectData now d).2) ∧
    ((validateCollectData now badPayloadC5).1 = false ∧
      4 ≤ (validateCollectData now badPayloadC5).2.length) := by
  refine ⟨?_, ?_, ?_, ?_⟩
  · simp [validateCollectData, List.isEmpty_iff]
  · intro e he
    simp only [validateCollectData]
    exact List.mem_filterMap.mpr ⟨some e, he, rfl⟩
  · rfl
  · show (4 : Nat) ≤ 4
    exact Nat.le_refl 4

/-- Witness for C5 at the example payload: the url validator fails with
its scheme message and that message appears in the accumulated error
list. -/
theorem validateCollectData_accumulates_witness :
    some "URL must start with http:// or https://" ∈ collectResults 0 badPayloadC5 ∧
    "URL must start with http:// or https://" ∈ (validateCollectData 0 badPayloadC5).2 :=
  ⟨by decide, (validateCollectData_accumulates 0 badPayloadC5).2.1 _ (by decide)⟩

/-! ## C6 -/

/-- A payload valid except for an empty-string timestamp field. -/
def tsEmptyPayload : CollectPayload :=
  ⟨.str "https://x.com", .str "abc123", .undef, .undef, .undef,
   .str "", .undef, .undef, .undef, .undef, .undef, .undef, .undef⟩

/-- C6 counterexample: the claim says an empty string for every
optional field, ts and props included, is treated as absent and
contributes no error; the code rejects an empty-string ts as a
non-number and an empty-string props as a non-object, and a payload
whose only flaw is an empty-string ts comes back invalid. -/
theorem optional_empty_string_ts_rejected :
    validateTimestamp 1700000000000 (.str "") = some "Timestamp must be a number" ∧
    validateEventProps (.str "") = some "Event properties must be an object" ∧
    (validateCollectData 1700000000000 tsEmptyPayload).1 = false ∧
    (validateCollectData 1700000000000 tsEmptyPayload).2 =
      ["Timestamp must be a number"] := by
  refine ⟨rfl, rfl, rfl, rfl⟩

/-- C6 amended: for the optional fields ref, scr, tz, evt and the five
utm parameters, a null, undefined or empty-string value is treated as
absent and contributes no error; for ts and props only null and
undefined are treated as absent, while an empty string is invalid
(a non-number timestamp, a non-object props). -/
theorem optional_absent_fields_valid (now : Int) (name : String) :
    (validateReferrer .null = none ∧ validateReferrer .undef = none ∧
      validateReferrer (.str "") = none) ∧
    (validateScreenSize .null = none ∧ validateScreenSize .undef = none ∧
      validateScreenSize (.str "") = none) ∧
    (validateTimezone .null = none ∧ validateTimezone .undef = none ∧
      validateTimezone (.str "") = none) ∧
    (validateEventName .null = none ∧ validateEventName .undef = none ∧
      validateEventName (.str "") = none) ∧
    (validateUtm .null name = none ∧ validateUtm .undef name = none ∧
      validateUtm (.str "") name = none) ∧
    (validateTimestamp now .null = none ∧ validateTimestamp now .undef = none) ∧
    (validateEventProps .null = none ∧ validateEventProps .undef = none) ∧
    validateTimestamp now (.str "") = some "Timestamp must be a number" ∧
    validateEventProps (.str "") = some "Event properties must be an object" := by
  refine ⟨⟨rfl, rfl, rfl⟩, ⟨rfl, rfl, rfl⟩, ⟨rfl, rfl, rfl⟩, ⟨rfl, rfl, rfl⟩,
    ⟨rfl, rfl, rfl⟩, ⟨rfl, rfl⟩, ⟨rfl, rfl⟩, rfl, rfl⟩

/-! ## C8 -/

/-- The sixteen lowercase hexadecimal digit characters. -/
def lowercaseHexDigits : List Char := "0123456789abcdef".data

/-- Every output of the nibble renderer is a lowercase hex digit. -/
theorem hexDigitChar_mem (n : Nat) : hexDigitChar n ∈ lowercaseHexDigits := by
  unfold hexDigitChar
  split <;> decide

/-- A SHA-256 digest always has 32 bytes. -/
theorem sha256_length (msg : List Nat) : (sha256 msg).length = 32 := by
  unfold sha256 wordBytes
  simp

/-- Hex rendering doubles the byte count. -/
theorem hexEncode_length (bytes : List Nat) :
    (hexEncode bytes).length = 2 * bytes.length := by
  induction bytes with
  | nil => rfl
  | cons b bs ih =>
    simp only [hexEncode, List.flatMap_cons] at ih ⊢
    simp only [List.length_append, List.length_cons, List.length_nil, ih]
    omega

/-- Every character of a hex rendering is a lowercase hex digit. -/
theorem hexEncode_mem (bytes : List Nat) (c : Char) (h : c ∈ hexEncode bytes) :
    c ∈ lowercaseHexDigits := by
  unfold hexEncode at h
  rw [List.mem_flatMap] at h
  obtain ⟨b, _, hc⟩ := h
  simp only [List.mem_cons, List.not_mem_nil, or_false] at hc
  rcases hc with rfl | rfl
  · exact hexDigitChar_mem _
  · exact hexDigitChar_mem _

/-- C8: for every session id, network address and call date, the
fingerprint hashSession produces is a string of exactly 16 characters,
each a lowercase hexadecimal digit. -/
theorem hashSession_hex16 (sessionId ip dateStr : String) :
    (hashSession sessionId ip dateStr).length = 16 ∧
    ∀ c ∈ (hashSession sessionId ip dateStr).data, c ∈ lowercaseHexDigits := by
  constructor
  · show (List.take 16 _).length = 16
    rw [List.length_take, hexEncode_length, sha256_length]
    decide
  · intro c hc
    exact hexEncode_mem _ c (List.mem_of_mem_take hc)

set_option maxHeartbeats 4000000 in
set_option maxRecDepth 100000 in
/-- Witness for C8 at concrete inputs: the first character of a
concrete fingerprint is a member and indeed a lowercase hex digit. -/
theorem hashSession_hex16_witness :
    '0' ∈ (hashSession "abc123" "1.2.3.4" "Mon Jan 01 2024").data ∧
    '0' ∈ lowercaseHexDigits :=
  ⟨by decide, (hashSession_hex16 "abc123" "1.2.3.4" "Mon Jan 01 2024").2 '0'
    (by decide)⟩

/-! ## C3 -/

/-- C3 counterexample: the claim says an upsert for an existing
fingerprint overwrites the stored country; after inserting a row with
country US and upserting the same fingerprint with country FR, the
stored row still has country US, so the country is not overwritten. -/
theorem updateActiveVisitor_country_not_overwritten :
    updateActiveVisitor
      (updateActiveVisitor [] "fp" "/a" (some "US") 100) "fp" "/b" (some "FR") 200 =
      [⟨"fp", "/b", some "US", 200, 2⟩] ∧
    (some "US" : Option String) ≠ some "FR" :=
  ⟨by decide, by decide⟩

/-- In a table with pairwise-distinct session hashes that contains a
row with the given key, exactly one row has that key. -/
theorem filter_key_length_eq_one (tbl : List VisitorRow) (fp : String)
    (hnd : (tbl.map VisitorRow.session_hash).Nodup)
    (hex : ∃ r ∈ tbl, r.session_hash = fp) :
    (tbl.filter (fun r => r.session_hash == fp)).length = 1 := by
  induction tbl with
  | nil => simp at hex
  | cons a t ih =>
    rw [List.map_cons, List.nodup_cons] at hnd
    by_cases ha : a.session_hash = fp
    · rw [List.filter_cons_of_pos (by simpa using ha)]
      have ht : t.filter (fun r => r.session_hash == fp) = [] := by
        apply List.filter_eq_nil_iff.mpr
        intro r hr
        simp only [beq_iff_eq]
        intro hc
        have hmem : a.session_hash ∈ t.map VisitorRow.session_hash := by
          rw [ha, ← hc]
          exact List.mem_map_of_mem VisitorRow.session_hash hr
        exact hnd.1 hmem
      simp [ht]
    · rw [List.filter_cons_of_neg (by simpa using ha)]
      apply ih hnd.2
      rcases hex with ⟨r, hr, hfp⟩
      rcases List.mem_cons.mp hr with rfl | hrt
      · exact absurd hfp ha
      · exact ⟨r, hrt, hfp⟩

/-- C3 amended: on a table with one row per fingerprint, the upsert
leaves exactly one row for the given fingerprint; if no row had that
fingerprint it appends a row with the given page, country and a page
count of 1; if a row had it, the table is rewritten so that the
matching row gets the new page and last-seen values and a page count
incremented by exactly 1, while its stored country is left unchanged. -/
theorem updateActiveVisitor_upsert (tbl : List VisitorRow) (fp page : String)
    (country : Option String) (nowSec : Int)
    (hnd : (tbl.map VisitorRow.session_hash).Nodup) :
    ((updateActiveVisitor tbl fp page country nowSec).filter
        (fun r => r.session_hash == fp)).length = 1 ∧
    ((∀ r ∈ tbl, r.session_hash ≠ fp) →
      updateActiveVisitor tbl fp page country nowSec =
        tbl ++ [⟨fp, page, country, nowSec, 1⟩]) ∧
    (∀ r ∈ tbl, r.session_hash = fp →
      updateActiveVisitor tbl fp page country nowSec =
        tbl.map (fun x =>
          if x.session_hash == fp then applyVisitorUpdate page nowSec x
          else x)) := by
  by_cases hany : tbl.any (fun r => r.session_hash == fp) = true
  · have hupd : updateActiveVisitor tbl fp page country nowSec =
        tbl.map (fun x =>
          if x.session_hash == fp then applyVisitorUpdate page nowSec x
          else x) := by
      unfold updateActiveVisitor
      rw [if_pos hany]
    obtain ⟨r0, hr0, hbeq⟩ := List.any_eq_true.mp hany
    refine ⟨?_, ?_, fun r hr hfp => hupd⟩
    · rw [hupd, List.filter_map, List.length_map]
      have hcongr : tbl.filter ((fun r => r.session_hash == fp) ∘ (fun x =>
            if x.session_hash == fp then applyVisitorUpdate page nowSec x
            else x)) = tbl.filter (fun r => r.session_hash == fp) := by
        apply List.filter_congr
        intro x _
        simp only [Function.comp]
        by_cases h : x.session_hash == fp <;> simp [h, applyVisitorUpdate]
      rw [hcongr]
      exact filter_key_length_eq_one tbl fp hnd ⟨r0, hr0, by simpa using hbeq⟩
    · intro hall
      exact absurd (by simpa using hbeq : r0.session_hash = fp) (hall r0 hr0)
  · have hfalse : tbl.any (fun r => r.session_hash == fp) = false :=
      Bool.eq_false_iff.mpr hany
    have hne : ∀ r ∈ tbl, r.session_hash ≠ fp := by
      intro r hr
      have := List.any_eq_false.mp hfalse r hr
      simpa using this
    have hins : updateActiveVisitor tbl fp page country nowSec =
        tbl ++ [⟨fp, page, country, nowSec, 1⟩] := by
      unfold updateActiveVisitor
      rw [if_neg hany]
    refine ⟨?_, fun _ => hins, fun r hr hfp => absurd hfp (hne r hr)⟩
    rw [hins, List.filter_append]
    have h1 : tbl.filter (fun r => r.session_hash == fp) = [] :=
      List.filter_eq_nil_iff.mpr (fun r hr => by simpa using hne r hr)
    rw [h1]
    simp

/-- Witness for C3 amended at a concrete one-row table. -/
theorem updateActiveVisitor_upsert_witness :
    (([⟨"fp", "/a", some "US", 100, 3⟩] : List VisitorRow).map
      VisitorRow.session_hash).Nodup ∧
    ((updateActiveVisitor [⟨"fp", "/a", some "US", 100, 3⟩] "fp" "/b"
        (some "FR") 200).filter (fun r => r.session_hash == "fp")).length = 1 :=
  ⟨by decide,
   (updateActiveVisitor_upsert [⟨"fp", "/a", some "US", 100, 3⟩] "fp" "/b"
     (some "FR") 200 (by decide)).1⟩

/-! ## C1 and C2: the aggregation cycle -/

/-- The concrete event of the C1 failing input: one pageview two hours
old, eligible for aggregation and young enough to survive the purge. -/
def c1EventSql : Event :=
  ⟨1700000000000 - 7200000, "/a", none, "s1", none, none, none, "pageview",
   none, none, none, none, none, none⟩

/-- The concrete store of the C1 failing input: that one raw event and
an empty hourly stats table. -/
def c1StateSql : DBStateSql := ⟨[c1EventSql], []⟩

/-- C1: the bucket key the program computes is NULL, because the
start of hour modifier the query names does not exist in SQLite, and
NULL primary keys never conflict, so the INSERT OR REPLACE of the
aggregation cycle appends instead of overwriting. Over a raw-event set
the first run leaves unchanged (its purge deletes nothing), the first
cycle writes one stats row and a second cycle at the same snapshot
appends a second identical row: a duplicate, where the claim requires
the same single overwritten bucket row. -/
theorem aggregateHourlyStats_duplicates_rows :
    (∀ e ∈ c1StateSql.events, purgeBoundary 1700000000000 ≤ e.timestamp) ∧
    (aggregateHourlyStatsSql 1700000000000 c1StateSql).events =
      c1StateSql.events ∧
    (aggregateHourlyStatsSql 1700000000000 c1StateSql).statsHourly =
      [⟨none, 1, 1⟩] ∧
    (aggregateHourlyStatsSql 1700000000000
        (aggregateHourlyStatsSql 1700000000000 c1StateSql)).statsHourly =
      [⟨none, 1, 1⟩, ⟨none, 1, 1⟩] :=
  ⟨by decide, by decide, by decide, by decide⟩

/-- C2: the purge of one aggregation cycle at snapshot `now` deletes
exactly the raw events with timestamp strictly below now minus 1 hour
minus 24 hours: afterwards an event is stored if and only if it was
stored before and its timestamp is at or above the purge boundary, and
both the select boundary and the purge boundary are derived from the
one `now` snapshot of the cycle. -/
theorem aggregateHourlyStats_retention (now : Int) (st : DBState) :
    ((aggregateHourlyStats now st).events =
      st.events.filter (fun e => !(e.timestamp < purgeBoundary now))) ∧
    (∀ e : Event, e ∈ (aggregateHourlyStats now st).events ↔
      (e ∈ st.events ∧ purgeBoundary now ≤ e.timestamp)) ∧
    purgeBoundary now = selectBoundary now - 86400000 ∧
    selectBoundary now = now - 3600000 := by
  refine ⟨rfl, ?_, rfl, rfl⟩
  intro e
  show e ∈ st.events.filter (fun e => !(e.timestamp < purgeBoundary now)) ↔ _
  rw [List.mem_filter]
  constructor
  · rintro ⟨h1, h2⟩
    exact ⟨h1, by simpa using h2⟩
  · rintro ⟨h1, h2⟩
    exact ⟨h1, by simpa using h2⟩

/-! ## C4: the retention sweep -/

/-- The hour bucket key of the C4 failing input: 366 days before the
failing-input clock reading, which is more than 8760 hours in the
past. -/
def c4RowKey : String := hourKey (1700000000000 - 366 * 86400000)

/-- The concrete store of the C4 failing input: one hourly aggregate
row at the failing key. -/
def c4State : DBState :=
  ⟨[], fun k => if k = c4RowKey then some ⟨5, 3⟩ else none, fun _ => none⟩

/-- C4: with the aggregated-data retention environment value set to
8760 - the default the configuration documents, described there as a
number of hours making about one year - the sweep keeps an hourly
aggregate row whose bucket is 366 days old, although that bucket is
older than the documented 8760-hour window, because the code multiplies
the configured value by a day rather than an hour in milliseconds. -/
theorem cleanupOldData_keeps_row_beyond_documented_window :
    (cleanupOldData (some "8760") 1700000000000 c4State).statsHourly c4RowKey =
      some ⟨5, 3⟩ ∧
    (1700000000000 - 366 * 86400000 : Int) < 1700000000000 - 8760 * 3600000 :=
  ⟨by decide, by decide⟩

/-! ## C7: the period comparison -/

/-- The zero-previous convention of calculateChange. -/
theorem calculateChange_zero_prev (curr : Nat) :
    calculateChange curr 0 = if 0 < curr then 100 else 0 := by
  simp [calculateChange]

/-- C7: for every event set and range, whenever the immediately
preceding period of identical length reports metric value 0, the
period comparison reports a change of exactly 100 when the current
value is positive and exactly 0 when it is 0, for the total metric and
for the unique-visitors metric alike; the zero-previous branch never
divides, so no infinity or error can arise. -/
theorem periodComparison_zero_previous (events : List Event)
    (startTime endTime : Int) :
    (((getPageViewsWithComparison events startTime endTime).previous.1 = 0 →
      0 < (getPageViewsWithComparison events startTime endTime).current.1 →
      (getPageViewsWithComparison events startTime endTime).change.1 = 100) ∧
     ((getPageViewsWithComparison events startTime endTime).previous.1 = 0 →
      (getPageViewsWithComparison events startTime endTime).current.1 = 0 →
      (getPageViewsWithComparison events startTime endTime).change.1 = 0)) ∧
    (((getPageViewsWithComparison events startTime endTime).previous.2 = 0 →
      0 < (getPageViewsWithComparison events startTime endTime).current.2 →
      (getPageViewsWithComparison events startTime endTime).change.2 = 100) ∧
     ((getPageViewsWithComparison events startTime endTime).previous.2 = 0 →
      (getPageViewsWithComparison events startTime endTime).current.2 = 0 →
      (getPageViewsWithComparison events startTime endTime).change.2 = 0)) := by
  refine ⟨⟨?_, ?_⟩, ⟨?_, ?_⟩⟩ <;> intro h1 h2
  · have h : (getPageViews events (startTime - (endTime - startTime))
        (endTime - (endTime - startTime))).1 = 0 := h1
    have h2c : 0 < (getPageViews events startTime endTime).1 := h2
    show calculateChange (getPageViews events startTime endTime).1 _ = 100
    rw [h, calculateChange_zero_prev, if_pos h2c]
  · have h : (getPageViews events (startTime - (endTime - startTime))
        (endTime - (endTime - startTime))).1 = 0 := h1
    have h2c : (getPageViews events startTime endTime).1 = 0 := h2
    show calculateChange (getPageViews events startTime endTime).1 _ = 0
    rw [h, calculateChange_zero_prev, if_neg (by omega)]
  · have h : (getPageViews events (startTime - (endTime - startTime))
        (endTime - (endTime - startTime))).2 = 0 := h1
    have h2c : 0 < (getPageViews events startTime endTime).2 := h2
    show calculateChange (getPageViews events startTime endTime).2 _ = 100
    rw [h, calculateChange_zero_prev, if_pos h2c]
  · have h : (getPageViews events (startTime - (endTime - startTime))
        (endTime - (endTime - startTime))).2 = 0 := h1
    have h2c : (getPageViews events startTime endTime).2 = 0 := h2
    show calculateChange (getPageViews events startTime endTime).2 _ = 0
    rw [h, calculateChange_zero_prev, if_neg (by omega)]

/-- The concrete event of the C7 witness: one pageview inside the
current period and outside the previous one. -/
def c7Event : Event :=
  ⟨500, "/a", none, "s1", none, none, none, "pageview",
   none, none, none, none, none, none⟩

/-- Witness for C7 at a concrete range whose previous period is empty:
previous total 0, current total positive, reported change exactly
100. -/
theorem periodComparison_zero_previous_witness :
    (getPageViewsWithComparison [c7Event] 0 1000).previous.1 = 0 ∧
    0 < (getPageViewsWithComparison [c7Event] 0 1000).current.1 ∧
    (getPageViewsWithComparison [c7Event] 0 1000).change.1 = 100 :=
  ⟨by decide, by decide,
   (periodComparison_zero_previous [c7Event] 0 1000).1.1 (by decide) (by decide)⟩

/-! ## C10: custom events are stored but never counted -/

/-- C10: appending a stored event whose event name is not pageview
leaves every stats query output unchanged for every range, limit and
date, and leaves every hourly aggregate bucket written by the
aggregation cycle unchanged: each of those reads filters on the
pageview event name, which the appended row fails. -/
theorem custom_events_not_counted (es : List Event) (e : Event)
    (hname : e.event_name ≠ "pageview") (startTime endTime : Int)
    (limit : Nat) (dateStr : String) (now : Int)
    (m md : String → Option HourlyRow) :
    getPageViews (es ++ [e]) startTime endTime =
      getPageViews es startTime endTime ∧
    getTopPages (es ++ [e]) startTime endTime limit =
      getTopPages es startTime endTime limit ∧
    getTopReferrers (es ++ [e]) startTime endTime limit =
      getTopReferrers es startTime endTime limit ∧
    getCountryStats (es ++ [e]) startTime endTime =
      getCountryStats es startTime endTime ∧
    getHourlyStats (es ++ [e]) dateStr = getHourlyStats es dateStr ∧
    (aggregateHourlyStats now ⟨es ++ [e], m, md⟩).statsHourly =
      (aggregateHourlyStats now ⟨es, m, md⟩).statsHourly := by
  have hpv : isPageview e = false := by
    simp [isPageview, hname]
  refine ⟨?_, ?_, ?_, ?_, ?_, ?_⟩
  · simp only [getPageViews]
    rw [filter_append_single_false es e _ (by simp [hpv])]
  · simp only [getTopPages]
    rw [filter_append_single_false es e _ (by simp [hpv])]
  · simp only [getTopReferrers]
    rw [filter_append_single_false es e _ (by simp [hpv])]
  · simp only [getCountryStats]
    rw [filter_append_single_false es e _ (by simp [hpv])]
  · simp only [getHourlyStats]
    rw [filter_append_single_false es e _ (by simp [hpv])]
  · simp only [aggregateHourlyStats, hourlyGroups]
    rw [filter_append_single_false es e _ (by simp [hpv])]

/-- The custom event of the C10 witness. -/
def c10Event : Event :=
  ⟨500, "/a", none, "s1", none, none, none, "signup",
   none, none, none, none, none, none⟩

/-- Witness for C10 at a concrete custom event: its name is not
pageview and appending it leaves the page-view totals unchanged. -/
theorem custom_events_not_counted_witness :
    c10Event.event_name ≠ "pageview" ∧
    getPageViews ([] ++ [c10Event]) 0 1000 = getPageViews [] 0 1000 :=
  ⟨by decide,
   (custom_events_not_counted [] c10Event (by decide) 0 1000 10 "2023-11-14"
     1700000000000 (fun _ => none) (fun _ => none)).1⟩

end MinimalMetrics
